import Mathlib

/-!
Verification of `stdnum.do.cedula` (Dominican Republic national identification
number) against its specification.

The module under study exposes four pure operations over strings:
`compact`, `validate`, `is_valid` and `format`, together with a static
whitelist of identifiers that are accepted although they fail the Luhn
checksum.  We embed the module shallowly: Python strings become Lean
`String`s (operated on through their `List Char` data), exceptions become
an explicit error type threaded through `Except`, and Python's `IndexError`
in `format` on an empty string becomes `Option.none`.

Only the ASCII fragment of Python's `str.isdigit` / `str.strip` is
modelled: the identifiers and separators involved are all ASCII.
-/

namespace Cedula

/-- The three validation error kinds raised by the module
(`InvalidFormat`, `InvalidLength`, `InvalidChecksum`), all subclasses of
`ValidationError`, modelled as a closed enumeration. -/
inductive ValidationError where
  | invalidFormat
  | invalidLength
  | invalidChecksum
deriving DecidableEq, Repr

deriving instance DecidableEq for Except

/-- ASCII fragment of Python's `str.isspace` / default `str.strip`
whitespace set: space, tab, newline, carriage return, vertical tab,
form feed. -/
def pyIsSpace (c : Char) : Bool :=
  c == ' ' || c == '\t' || c == '\n' || c == '\r' || c == '\x0b' || c == '\x0c'

/-- Modelled from the spec: `stdnum.util.clean(number, ' -')` is not under
`src/`; per the spec it "removes all occurrences of the separator
characters `' '` and `'-'` from the input". -/
def cleanChars (l : List Char) : List Char :=
  l.filter (fun c => !(c == ' ' || c == '-'))

/-- Python's `str.strip()` on a list of characters: drop leading and
trailing whitespace. -/
def stripChars (l : List Char) : List Char :=
  ((l.dropWhile pyIsSpace).reverse.dropWhile pyIsSpace).reverse

/-- `compact(number)`: strip the number of any valid separators and
remove surrounding whitespace (`clean(number, ' -').strip()`). -/
def compact (number : String) : String :=
  ⟨stripChars (cleanChars number.data)⟩

/-- A character list has no leading and no trailing whitespace (in the
sense of `pyIsSpace`). -/
def noEdgeWhitespace (l : List Char) : Bool :=
  l.head?.all (fun c => !(pyIsSpace c)) && l.getLast?.all (fun c => !(pyIsSpace c))

/-- ASCII fragment of Python's `str.isdigit`: true iff the string is
non-empty and every character is one of `'0'`-`'9'`.  In particular
`''.isdigit()` is `False`. -/
def pyIsdigit (s : String) : Bool :=
  !s.data.isEmpty && s.data.all Char.isDigit

/-- The static whitelist of cedulas that do not match the checksum but are
nonetheless valid, exactly as listed in the source (578 entries). -/
def whitelist : List String := [
  "00000021249", "00000031417", "00000035692", "00000045342", "00000058035", "00000065377",
  "00000078587", "00000111941", "00000126295", "00000129963", "00000140874", "00000144491",
  "00000155482", "00000195576", "00000236621", "00000292212", "00000302347", "00000404655",
  "00000547495", "00000564933", "00000669773", "00000719400", "00001965804", "00004110056",
  "00006747587", "00010130085", "00010628559", "00077584000", "00100000169", "00100012146",
  "00100013114", "00100016495", "00100053841", "00100061611", "00100061945", "00100074627",
  "00100083860", "00100101767", "00100126468", "00100145737", "00100165504", "00100169706",
  "00100172940", "00100174666", "00100181057", "00100228718", "00100231017", "00100238382",
  "00100239662", "00100255349", "00100288143", "00100288929", "00100322649", "00100336027",
  "00100350928", "00100378440", "00100384268", "00100384523", "00100415853", "00100430989",
  "00100523399", "00100524531", "00100530588", "00100531007", "00100587320", "00100590683",
  "00100593378", "00100622461", "00100664086", "00100709215", "00100728113", "00100729795",
  "00100756082", "00100759932", "00101118022", "00101166065", "00101234090", "00101527366",
  "00101541404", "00101621981", "00101659661", "00101684656", "00101686299", "00101821735",
  "00101961125", "00102025201", "00102398239", "00102577448", "00102630192", "00103266558",
  "00103436936", "00103443802", "00103754365", "00103766231", "00103822440", "00103983004",
  "00104486903", "00104532086", "00104662561", "00104727362", "00104785104", "00104862525",
  "00104966313", "00105263314", "00105328185", "00105512386", "00105530894", "00105606543",
  "00105832408", "00106190966", "00106284933", "00106418989", "00106442522", "00106479922",
  "00106916538", "00107045499", "00107075090", "00107184305", "00107445493", "00107602067",
  "00107665688", "00107687383", "00107691942", "00108113363", "00108132448", "00108184024",
  "00108264871", "00108286792", "00108384121", "00108413431", "00108497822", "00108784684",
  "00108796883", "00108940225", "00109183462", "00109229090", "00109402756", "00109785951",
  "00109987435", "00110047715", "00110071113", "00110111536", "00110490843", "00110578459",
  "00110646203", "00111014782", "00111150559", "00113453700", "00114272360", "00114532330",
  "00114532355", "00114687216", "00115039795", "00115343847", "00116256005", "00116448241",
  "00116508511", "00117582001", "00119161853", "00121344165", "00121581750", "00121581800",
  "00129737056", "00130610001", "00131257003", "00133987848", "00134588056", "00142864013",
  "00143072001", "00144435001", "00146965001", "00147485003", "00149657590", "00155144906",
  "00160405001", "00161884001", "00162906003", "00163540003", "00163549012", "00163709018",
  "00166457056", "00166533003", "00167311001", "00170009162", "00170115579", "00171404771",
  "00174729003", "00174940001", "00181880003", "00184129003", "00189213001", "00189405093",
  "00190002567", "00196714003", "00200021994", "00200028716", "00200040516", "00200063601",
  "00200123640", "00200291381", "00200409772", "00200435544", "00200969260", "00201023001",
  "00202110760", "00202744522", "00207327056", "00208430205", "00208832003", "00218507031",
  "00222017001", "00235482001", "00236245013", "00241997013", "00246160013", "00261011013",
  "00270764013", "00274652001", "00278005023", "00289931003", "00291431001", "00291549003",
  "00297018001", "00298109001", "00299724003", "00300001538", "00300011700", "00300013835",
  "00300015531", "00300017875", "00300019575", "00300020806", "00300025568", "00300040413",
  "00300052890", "00300169535", "00300244009", "00300636564", "00301200901", "00305535206",
  "00345425001", "00352861001", "00356533003", "00362684023", "00376023023", "00388338093",
  "00400001552", "00400001614", "00400012957", "00400189811", "00409169001", "00425759001",
  "00435518003", "00475916056", "00481106001", "00481595003", "00493593003", "00500335596",
  "00516077003", "00520207699", "00524571001", "00539342005", "00540077717", "00544657001",
  "00561269169", "00572030001", "00574599001", "00599408003", "00633126023", "00644236001",
  "00648496171", "00651322001", "00686904003", "00701067521", "00720758056", "00731054054",
  "00741721056", "00757398001", "00800106971", "00848583056", "00857630012", "0094662667",
  "00971815056", "01000005580", "01000250733", "01000268998", "01000728704", "01000855890",
  "01038813907", "01094560111", "01100014261", "01100620962", "01103552230", "01133025660",
  "01154421047", "01200004166", "01200008613", "01200011252", "01200014133", "01200027863",
  "01200033420", "01200038298", "01200771767", "01300001142", "01300005424", "01300020331",
  "01400000282", "01400074875", "01600009531", "01600019983", "01600026316", "01600027894",
  "01650257001", "01700052445", "01700200811", "01800022457", "01800058439", "01800527104",
  "01810035037", "02038569001", "02100061022", "02300003061", "02300023225", "02300031758",
  "02300037618", "02300047220", "02300052220", "02300054193", "02300062066", "02300085158",
  "02400229955", "02500045676", "02600036132", "02600094954", "02700029905", "02755972001",
  "02800000129", "02800021761", "02800025877", "02800029588", "02831146001", "03000411295",
  "03100001162", "03100018730", "03100034839", "03100083297", "03100109611", "03100156525",
  "03100195659", "03100231390", "03100232921", "03100277078", "03100304632", "03100332296",
  "03100398552", "03100442457", "03100486248", "03100488033", "03100620176", "03100654224",
  "03100668294", "03100673050", "03100771674", "03100789636", "03100831768", "03100963776",
  "03100984652", "03101014877", "03101070888", "03101105802", "03101162278", "03101409196",
  "03101456639", "03101477254", "03101577963", "03101713684", "03101977306", "03102342076",
  "03102399233", "03102678700", "03102805428", "03102828522", "03102936385", "03103202719",
  "03103315310", "03103317617", "03103749672", "03104354892", "03107049671", "03108309308",
  "03111670001", "03121982479", "03131503831", "03170483480", "03200023002", "03200066940",
  "03300023841", "03400058730", "03400157849", "03401709701", "03500037890", "03600046116",
  "03600127038", "03600180637", "03700663589", "03800032522", "03807240010", "03852380001",
  "03900069856", "03900192284", "04022130495", "04200012900", "04400002002", "04400627868",
  "04600198229", "04700004024", "04700020933", "04700027064", "04700061076", "04700070460",
  "04700074827", "04700211635", "04700221469", "04700728184", "04701174268", "04800019561",
  "04800034846", "04800046910", "04800956889", "04801245892", "04900009932", "04900011690",
  "04900013913", "04900014592", "04900026260", "04900028443", "04900448230", "04902549001",
  "04941042001", "05100085656", "05300013029", "05300013204", "05300123494", "05400016031",
  "05400021759", "05400022042", "05400028496", "05400033166", "05400034790", "05400037495",
  "05400038776", "05400040523", "05400047674", "05400048248", "05400049237", "05400049834",
  "05400050196", "05400050304", "05400052300", "05400053627", "05400054156", "05400055485",
  "05400055770", "05400057300", "05400057684", "05400058964", "05400059956", "05400060743",
  "05400062459", "05400065376", "05400067703", "05400072273", "05400076481", "05400216948",
  "05400878578", "05500003079", "05500006796", "05500008806", "05500012039", "05500014375",
  "05500017761", "05500021118", "05500022399", "05500023407", "05500024135", "05500024190",
  "05500027749", "05500028350", "05500032681", "05500173451", "05500303477", "05600037761",
  "05600038251", "05600038964", "05600051191", "05600063115", "05600166034", "05600267737",
  "05600553831", "05700004693", "05700064077", "05700071202", "05900072869", "05900105969",
  "06100007818", "06100009131", "06100011935", "06100013662", "06100016486", "06100017058",
  "06337850001", "06400007916", "06400011981", "06400014372", "06400069279", "06486186001",
  "06500162568", "06800008448", "06800245196", "06843739551", "06900069184", "07000007872",
  "07100018031", "07100063262", "0710208838", "07400001254", "07401860112", "07600000691",
  "07700009346", "07800000968", "07800002361", "08000213172", "08016809001", "08100002398",
  "08400068380", "08498619001", "08800002823", "08800003986", "08800005068", "08900001310",
  "08900004344", "08900004849", "08900005064", "08952698001", "09000117963", "09000169133",
  "09010011235", "09022066011", "09200533048", "09300006239", "09300035357", "09400022178",
  "09421581768", "09500001177", "09500003211", "09500008222", "09700003030", "09700179110",
  "09900017864", "10061805811", "10100178199", "10201116357", "10462157001", "10491297001",
  "10621581792", "10983439110", "11700000658", "12019831001", "12300074628", "21000000000",
  "22321581834", "22721581818", "40200401324", "40200452735", "40200639953", "40200700675",
  "58005174058", "90001200901"]

/-- Auxiliary sum of the Luhn checksum over the reversed digit list:
digits in even positions (from the right) are added as-is, digits in odd
positions are doubled and their decimal digits added
(`divmod(i * 2, 10)` summed). -/
def luhnSum : List Nat → Bool → Nat
  | [], _ => 0
  | d :: ds, false => d + luhnSum ds true
  | d :: ds, true => (2 * d) / 10 + (2 * d) % 10 + luhnSum ds false

/-- Modelled from the spec: the Checksum Primitive (`stdnum.luhn`) is not
under `src/`; per the spec it is "a standard check-digit algorithm
(e.g. a mod-10 double-and-sum scheme)": the Luhn checksum of the digit
string, which must be 0 for the number to be valid. -/
def luhnChecksum (s : String) : Nat :=
  luhnSum (s.data.reverse.map (fun c => c.toNat - 48)) false % 10

/-- `validate(number)`: compact, check all-digits (`InvalidFormat`),
whitelist membership (immediate accept), length 11 (`InvalidLength`),
then the Luhn checksum (`InvalidChecksum`); on success the compacted
number is returned. -/
def validate (number : String) : Except ValidationError String :=
  if pyIsdigit (compact number) = false then .error .invalidFormat
  else if compact number ∈ whitelist then .ok (compact number)
  else if (compact number).length ≠ 11 then .error .invalidLength
  else if luhnChecksum (compact number) ≠ 0 then .error .invalidChecksum
  else .ok (compact number)

/-- `is_valid(number)`: `bool(validate(number))`, with every
`ValidationError` caught and turned into `False`.  `bool` on the returned
string is truth of non-emptiness. -/
def is_valid (number : String) : Bool :=
  match validate number with
  | .ok n => !n.data.isEmpty
  | .error _ => false

/-- `format(number)`: compact, then `'-'.join((number[:3], number[3:-1],
number[-1]))`.  Python's `number[-1]` raises `IndexError` when the
compacted string is empty; this is modelled as `none`.  The slice
`number[3:-1]` is the characters with indices in `[3, len-1)`. -/
def format (number : String) : Option String :=
  match (compact number).data.getLast? with
  | none => none
  | some c => some ⟨(compact number).data.take 3 ++
      '-' :: (((compact number).data.take ((compact number).data.length - 1)).drop 3 ++
        ['-', c])⟩

/-! ### Helper lemmas -/

set_option maxRecDepth 40000

theorem head?_dropWhile_false {α} {p : α → Bool} {l : List α} {c : α}
    (h : (l.dropWhile p).head? = some c) : p c = false := by
  have hm := List.head?_dropWhile_not p l
  rw [h] at hm
  exact hm

theorem dropWhile_eq_self_of_head {α} {p : α → Bool} {l : List α}
    (h : ∀ c, l.head? = some c → p c = false) : l.dropWhile p = l := by
  cases l with
  | nil => rfl
  | cons a t =>
    have ha := h a rfl
    simp [List.dropWhile_cons, ha]

theorem getLast?_dropWhile {α} (p : α → Bool) (l : List α)
    (h : l.dropWhile p ≠ []) : (l.dropWhile p).getLast? = l.getLast? := by
  induction l with
  | nil => simp at h
  | cons a t ih =>
    by_cases hp : p a
    · rw [List.dropWhile_cons_of_pos hp] at h ⊢
      rw [ih h]
      have ht : t ≠ [] := by
        rintro rfl
        simp at h
      cases t with
      | nil => exact absurd rfl ht
      | cons b u => rw [List.getLast?_cons_cons]
    · rw [List.dropWhile_cons_of_neg hp]

theorem stripChars_sublist (l : List Char) : List.Sublist (stripChars l) l := by
  unfold stripChars
  have h1 : List.Sublist (l.dropWhile pyIsSpace) l := List.dropWhile_sublist _
  have h2 : List.Sublist ((l.dropWhile pyIsSpace).reverse.dropWhile pyIsSpace)
      (l.dropWhile pyIsSpace).reverse := List.dropWhile_sublist _
  have h3 := h2.reverse
  rw [List.reverse_reverse] at h3
  exact h3.trans h1

theorem stripChars_head {l : List Char} {c : Char}
    (h : (stripChars l).head? = some c) : pyIsSpace c = false := by
  unfold stripChars at h
  rw [List.head?_reverse] at h
  have hne : (l.dropWhile pyIsSpace).reverse.dropWhile pyIsSpace ≠ [] := by
    intro he
    rw [he] at h
    simp at h
  rw [getLast?_dropWhile _ _ hne, List.getLast?_reverse] at h
  exact head?_dropWhile_false h

theorem stripChars_getLast {l : List Char} {c : Char}
    (h : (stripChars l).getLast? = some c) : pyIsSpace c = false := by
  unfold stripChars at h
  rw [List.getLast?_reverse] at h
  exact head?_dropWhile_false h

theorem stripChars_eq_self {l : List Char}
    (hh : ∀ c, l.head? = some c → pyIsSpace c = false)
    (hl : ∀ c, l.getLast? = some c → pyIsSpace c = false) :
    stripChars l = l := by
  unfold stripChars
  rw [dropWhile_eq_self_of_head hh]
  have hrev : ∀ c, l.reverse.head? = some c → pyIsSpace c = false := by
    intro c hc
    rw [List.head?_reverse] at hc
    exact hl c hc
  rw [dropWhile_eq_self_of_head hrev, List.reverse_reverse]

theorem cleanChars_eq_self {l : List Char}
    (h : ∀ c ∈ l, (c == ' ' || c == '-') = false) : cleanChars l = l := by
  unfold cleanChars
  rw [List.filter_eq_self]
  intro a ha
  rw [h a ha]
  rfl

theorem noEdgeWhitespace_iff (l : List Char) :
    noEdgeWhitespace l = true ↔
      ((∀ c, l.head? = some c → pyIsSpace c = false) ∧
       (∀ c, l.getLast? = some c → pyIsSpace c = false)) := by
  unfold noEdgeWhitespace
  rw [Bool.and_eq_true]
  constructor
  · rintro ⟨h1, h2⟩
    constructor
    · intro c hc
      rw [hc] at h1
      simpa using h1
    · intro c hc
      rw [hc] at h2
      simpa using h2
  · rintro ⟨h1, h2⟩
    constructor
    · cases hc : l.head? with
      | none => rfl
      | some c => simpa using h1 c hc
    · cases hc : l.getLast? with
      | none => rfl
      | some c => simpa using h2 c hc

theorem compact_data (s : String) :
    (compact s).data = stripChars (cleanChars s.data) := rfl

theorem whitelist_all_digits : ∀ w ∈ whitelist, pyIsdigit w = true := by decide

theorem pyIsdigit_false_iff (t : String) :
    pyIsdigit t = false ↔ (t.data = [] ∨ ∃ c ∈ t.data, c.isDigit = false) := by
  unfold pyIsdigit
  rw [Bool.and_eq_false_iff]
  constructor
  · rintro (h | h)
    · left
      simpa [List.isEmpty_iff] using h
    · right
      rcases List.all_eq_false.mp h with ⟨c, hc, hcd⟩
      exact ⟨c, hc, by simpa using hcd⟩
  · rintro (h | ⟨c, hc, hcd⟩)
    · left
      simp [h]
    · right
      rw [List.all_eq_false]
      exact ⟨c, hc, by simp [hcd]⟩

theorem validate_eq_invalidFormat_iff (s : String) :
    validate s = .error .invalidFormat ↔ pyIsdigit (compact s) = false := by
  unfold validate
  by_cases h : pyIsdigit (compact s) = false
  · simp [h]
  · rw [if_neg h]
    constructor
    · intro hc
      split at hc
      · simp at hc
      · split at hc
        · simp at hc
        · split at hc
          · simp at hc
          · simp at hc
    · intro hc
      exact absurd hc h

theorem validate_ok_nonempty {s r : String} (h : validate s = .ok r) :
    r.data ≠ [] := by
  unfold validate at h
  by_cases h1 : pyIsdigit (compact s) = false
  · rw [if_pos h1] at h
    simp at h
  · rw [if_neg h1] at h
    by_cases h2 : compact s ∈ whitelist
    · rw [if_pos h2] at h
      have hr : compact s = r := by simpa using h
      have hd := whitelist_all_digits _ h2
      rw [hr] at hd
      intro he
      unfold pyIsdigit at hd
      rw [he] at hd
      simp at hd
    · rw [if_neg h2] at h
      by_cases h3 : (compact s).length ≠ 11
      · rw [if_pos h3] at h
        simp at h
      · rw [if_neg h3] at h
        by_cases h4 : luhnChecksum (compact s) ≠ 0
        · rw [if_pos h4] at h
          simp at h
        · rw [if_neg h4] at h
          have hr : compact s = r := by simpa using h
          push_neg at h3
          intro he
          rw [← hr] at he
          have hz : (compact s).length = 0 := by
            show (compact s).data.length = 0
            simp [he]
          omega

/-! ### Claim theorems -/

/-- C1: for every input string whose compacted form is a member of the
static whitelist, `validate` returns that compacted string (all whitelist
entries are digit strings, so the format check passes, and membership
short-circuits the length and checksum checks). -/
theorem validate_whitelisted (s : String) (hw : compact s ∈ whitelist) :
    validate s = .ok (compact s) := by
  have hd : pyIsdigit (compact s) = true := whitelist_all_digits _ hw
  unfold validate
  rw [if_neg (by simp [hd]), if_pos hw]

/-- C1 witness: `'0094662667'` is a 10-digit whitelist entry and
`validate` accepts it although its length is not 11. -/
theorem validate_whitelisted_witness :
    compact "0094662667" ∈ whitelist ∧ ("0094662667" : String).length = 10 ∧
    validate "0094662667" = .ok "0094662667" :=
  ⟨by decide, by decide, by exact validate_whitelisted "0094662667" (by decide)⟩

/-- C2 counterexample: the empty string compacts to the empty string,
which contains no character outside the digits 0-9, yet `validate` fails
with `InvalidFormat` (Python's `''.isdigit()` is `False`). -/
theorem validate_empty_invalidFormat :
    (compact "").data = [] ∧ validate "" = .error .invalidFormat :=
  ⟨rfl, by decide⟩

/-- C2 amended: `validate` fails with `InvalidFormat` iff the compacted
input is empty or contains at least one character outside the ASCII
digits 0-9. -/
theorem validate_invalidFormat_iff (s : String) :
    validate s = .error .invalidFormat ↔
      ((compact s).data = [] ∨ ∃ c ∈ (compact s).data, c.isDigit = false) := by
  rw [validate_eq_invalidFormat_iff]
  exact pyIsdigit_false_iff _

/-- C3: for every non-whitelisted input that is 11 digits after
compaction, `validate` returns the compacted string when the Luhn
checksum passes and fails with `InvalidChecksum` when it fails. -/
theorem validate_checksum_cases (s : String)
    (hd : ∀ c ∈ (compact s).data, c.isDigit = true)
    (hl : (compact s).length = 11)
    (hw : compact s ∉ whitelist) :
    (luhnChecksum (compact s) = 0 → validate s = .ok (compact s)) ∧
    (luhnChecksum (compact s) ≠ 0 → validate s = .error .invalidChecksum) := by
  have hlen : (compact s).data.length = 11 := hl
  have hne : (compact s).data ≠ [] := by
    intro he
    rw [he] at hlen
    simp at hlen
  have hdig : pyIsdigit (compact s) = true := by
    unfold pyIsdigit
    rw [Bool.and_eq_true]
    exact ⟨by simp [hne], List.all_eq_true.mpr hd⟩
  unfold validate
  rw [if_neg (by simp [hdig]), if_neg hw, if_neg (by simp [hl])]
  constructor
  · intro h0
    rw [if_neg (by simp [h0])]
  · intro hns
    rw [if_pos hns]

/-- C3 witness: `'00113918205'` (valid Luhn checksum) is accepted and
`'00113918204'` (last digit altered) fails with `InvalidChecksum`. -/
theorem validate_checksum_cases_witness :
    (∀ c ∈ (compact "00113918205").data, c.isDigit = true) ∧
    (compact "00113918205").length = 11 ∧
    compact "00113918205" ∉ whitelist ∧
    luhnChecksum (compact "00113918205") = 0 ∧
    validate "00113918205" = .ok "00113918205" ∧
    luhnChecksum (compact "00113918204") ≠ 0 ∧
    validate "00113918204" = .error .invalidChecksum :=
  ⟨by decide, by decide, by decide, by decide,
   by exact (validate_checksum_cases "00113918205"
     (by decide) (by decide) (by decide)).1 (by decide),
   by decide,
   by exact (validate_checksum_cases "00113918204"
     (by decide) (by decide) (by decide)).2 (by decide)⟩

/-- C4: `is_valid` returns `true` iff `validate` succeeds, and returns
`false` whenever `validate` fails with any validation error kind; it
never propagates the error. -/
theorem is_valid_iff_validate (s : String) :
    (is_valid s = true ↔ ∃ r, validate s = .ok r) ∧
    (∀ e, validate s = .error e → is_valid s = false) := by
  refine ⟨⟨?_, ?_⟩, ?_⟩
  · intro h
    unfold is_valid at h
    cases hv : validate s with
    | ok r => exact ⟨r, rfl⟩
    | error e =>
      rw [hv] at h
      simp at h
  · rintro ⟨r, hr⟩
    unfold is_valid
    rw [hr]
    have hne := validate_ok_nonempty hr
    simp [hne]
  · intro e he
    unfold is_valid
    rw [he]

/-- C5 counterexample: `'- -'` compacts to the empty string, which
consists only of digits (vacuously) and is not whitelisted, and whose
length is not 11; yet `validate` fails with `InvalidFormat`, not
`InvalidLength`. -/
theorem validate_empty_not_invalidLength :
    (compact "- -").data.all Char.isDigit = true ∧
    compact "- -" ∉ whitelist ∧
    (compact "- -").length ≠ 11 ∧
    validate "- -" ≠ .error .invalidLength ∧
    validate "- -" = .error .invalidFormat := by decide

/-- C5 amended: for every input whose compacted form is non-empty,
consists only of digits and is not whitelisted, `validate` fails with
`InvalidLength` iff the compacted form's length is not exactly 11. -/
theorem validate_invalidLength_iff (s : String)
    (hne : (compact s).data ≠ [])
    (hd : ∀ c ∈ (compact s).data, c.isDigit = true)
    (hw : compact s ∉ whitelist) :
    (validate s = .error .invalidLength ↔ (compact s).length ≠ 11) := by
  have hdig : pyIsdigit (compact s) = true := by
    unfold pyIsdigit
    rw [Bool.and_eq_true]
    exact ⟨by simp [hne], List.all_eq_true.mpr hd⟩
  unfold validate
  rw [if_neg (by simp [hdig]), if_neg hw]
  by_cases h : (compact s).length ≠ 11
  · simp [h]
  · rw [if_neg h]
    constructor
    · intro hc
      split at hc
      · simp at hc
      · simp at hc
    · intro hc
      exact absurd hc h

/-- C5 witness: `'123'` is a non-empty, non-whitelisted digit string of
length 3, and `validate` fails on it with `InvalidLength`. -/
theorem validate_invalidLength_iff_witness :
    (compact "123").data ≠ [] ∧
    (∀ c ∈ (compact "123").data, c.isDigit = true) ∧
    compact "123" ∉ whitelist ∧
    (compact "123").length ≠ 11 ∧
    validate "123" = .error .invalidLength :=
  ⟨by decide, by decide, by decide, by decide,
   (validate_invalidLength_iff "123"
     (by decide) (by decide) (by decide)).2 (by decide)⟩

/-- C6 counterexample: `format` does not return a string on every input:
on `''` the compacted string is empty, there is no final character, and
the indexing raises (modelled as `none`). -/
theorem format_empty_not_some :
    compact "" = "" ∧ format "" = none :=
  ⟨rfl, rfl⟩

/-- C6 amended: for every input whose compacted form is non-empty,
`format` returns the three groups — characters `[0,3)`, characters
`[3, len-1)` and the final character of the compacted string — joined by
hyphens. -/
theorem format_groups (s : String) (c : Char)
    (h : (compact s).data.getLast? = some c) :
    format s = some ⟨(compact s).data.take 3 ++
      '-' :: (((compact s).data.take ((compact s).data.length - 1)).drop 3 ++
        ['-', c])⟩ := by
  unfold format
  rw [h]

/-- C6 witness: `format('22400022111') = '224-0002211-1'`. -/
theorem format_groups_witness :
    (compact "22400022111").data.getLast? = some '1' ∧
    format "22400022111" = some "224-0002211-1" :=
  ⟨rfl, by exact format_groups "22400022111" '1' rfl⟩

/-- C7: `compact` only removes characters from its input (it is a
sublist), the result contains no space and no hyphen, and the result has
no leading or trailing whitespace; `compact` is total by construction. -/
theorem compact_removes_and_strips (s : String) :
    List.Sublist (compact s).data s.data ∧
    ' ' ∉ (compact s).data ∧
    '-' ∉ (compact s).data ∧
    noEdgeWhitespace (compact s).data = true := by
  have hsub : List.Sublist (compact s).data s.data := by
    rw [compact_data]
    exact (stripChars_sublist _).trans (List.filter_sublist _)
  have hclean : ∀ c ∈ (compact s).data, (c == ' ' || c == '-') = false := by
    intro c hc
    rw [compact_data] at hc
    have hc2 := (stripChars_sublist (cleanChars s.data)).mem hc
    unfold cleanChars at hc2
    have := List.of_mem_filter hc2
    simpa using this
  refine ⟨hsub, ?_, ?_, ?_⟩
  · intro hmem
    have := hclean _ hmem
    simp at this
  · intro hmem
    have := hclean _ hmem
    simp at this
  · rw [noEdgeWhitespace_iff]
    constructor
    · intro c hc
      rw [compact_data] at hc
      exact stripChars_head hc
    · intro c hc
      rw [compact_data] at hc
      exact stripChars_getLast hc

/-- C8: `compact` is idempotent. -/
theorem compact_idempotent (s : String) : compact (compact s) = compact s := by
  have hclean : cleanChars (compact s).data = (compact s).data := by
    apply cleanChars_eq_self
    intro c hc
    rw [compact_data] at hc
    have hc2 := (stripChars_sublist (cleanChars s.data)).mem hc
    unfold cleanChars at hc2
    have := List.of_mem_filter hc2
    simpa using this
  have hstrip : stripChars (compact s).data = (compact s).data := by
    apply stripChars_eq_self
    · intro c hc
      rw [compact_data] at hc
      exact stripChars_head hc
    · intro c hc
      rw [compact_data] at hc
      exact stripChars_getLast hc
  show (⟨stripChars (cleanChars (compact s).data)⟩ : String) = compact s
  rw [hclean, hstrip]

/-- C9: `format` is not total: whenever the input compacts to the empty
string, taking the final character of the empty compacted string raises
an indexing error (modelled as `none`) instead of returning a string. -/
theorem format_empty_fails (s : String) (h : compact s = "") :
    format s = none := by
  unfold format
  rw [h]
  rfl

/-- C9 witness: `'- -'` compacts to the empty string and `format` fails
on it. -/
theorem format_empty_fails_witness :
    compact "- -" = "" ∧ format "- -" = none :=
  ⟨rfl, format_empty_fails "- -" rfl⟩

/-- C10 counterexample: `'1'` is a non-empty string with no space or
hyphen and no surrounding whitespace, yet
`compact(format('1')) = '11' ≠ '1'`: `format` duplicates characters of
strings shorter than 4. -/
theorem roundtrip_short_counterexample :
    ("1" : String) ≠ "" ∧
    ("1" : String).data.all (fun c => !(c == ' ' || c == '-')) = true ∧
    noEdgeWhitespace ("1" : String).data = true ∧
    (format "1").map compact = some "11" ∧
    some ("11" : String) ≠ some ("1" : String) := by decide

/-- C10 amended: for every string of length at least 4 that contains no
space or hyphen characters and has no leading or trailing whitespace (in
particular every canonical 11-digit identifier),
`compact(format(n)) = n`. -/
theorem compact_format_roundtrip (n : String)
    (h4 : 4 ≤ n.data.length)
    (hsep : ∀ c ∈ n.data, c ≠ ' ' ∧ c ≠ '-')
    (hedge : noEdgeWhitespace n.data = true) :
    (format n).map compact = some n := by
  obtain ⟨hh, hl⟩ := (noEdgeWhitespace_iff n.data).mp hedge
  have hsepb : ∀ c ∈ n.data, (c == ' ' || c == '-') = false := by
    intro c hc
    obtain ⟨h1, h2⟩ := hsep c hc
    simp [h1, h2]
  have hptrue : ∀ x ∈ n.data, (!(x == ' ' || x == '-')) = true := by
    intro x hx
    rw [hsepb x hx]
    rfl
  have hcn : compact n = n := by
    show (⟨stripChars (cleanChars n.data)⟩ : String) = n
    rw [cleanChars_eq_self hsepb, stripChars_eq_self hh hl]
  have hne : n.data ≠ [] := by
    intro he
    rw [he] at h4
    simp at h4
  have hlast : n.data.getLast? = some (n.data.getLast hne) :=
    List.getLast?_eq_getLast _ hne
  set c := n.data.getLast hne with hcdef
  set mid := (n.data.take (n.data.length - 1)).drop 3 with hmid
  have hfmt : format n = some ⟨n.data.take 3 ++ '-' :: (mid ++ ['-', c])⟩ := by
    unfold format
    rw [hcn, hlast]
  have hmemmid : ∀ x ∈ mid, x ∈ n.data := by
    intro x hx
    rw [hmid] at hx
    exact List.take_subset _ _ (List.drop_subset _ _ hx)
  have hcmem : c ∈ n.data := List.getLast_mem hne
  have hclean : cleanChars (n.data.take 3 ++ '-' :: (mid ++ ['-', c])) =
      n.data.take 3 ++ (mid ++ [c]) := by
    unfold cleanChars
    rw [List.filter_append]
    rw [List.filter_eq_self.mpr (fun a ha => hptrue a (List.take_subset _ _ ha))]
    congr 1
    rw [List.filter_cons_of_neg (by decide)]
    rw [List.filter_append]
    rw [List.filter_eq_self.mpr (fun a ha => hptrue a (hmemmid a ha))]
    congr 1
    rw [List.filter_cons_of_neg (by decide)]
    rw [List.filter_eq_self.mpr ?_]
    intro a ha
    rw [List.mem_singleton] at ha
    subst ha
    exact hptrue c hcmem
  have hid : n.data.take 3 ++ (mid ++ [c]) = n.data := by
    have hmin : min 3 (n.data.length - 1) = 3 := by omega
    have h1 : (n.data.take (n.data.length - 1)).take 3 = n.data.take 3 := by
      rw [List.take_take, hmin]
    calc n.data.take 3 ++ (mid ++ [c])
        = ((n.data.take (n.data.length - 1)).take 3 ++ mid) ++ [c] := by
          rw [h1, List.append_assoc]
      _ = n.data.take (n.data.length - 1) ++ [c] := by
          rw [hmid, List.take_append_drop]
      _ = n.data.dropLast ++ [c] := by
          rw [List.dropLast_eq_take]
      _ = n.data := List.dropLast_concat_getLast hne
  rw [hfmt]
  show some (compact ⟨n.data.take 3 ++ '-' :: (mid ++ ['-', c])⟩) = some n
  congr 1
  show (⟨stripChars (cleanChars (n.data.take 3 ++ '-' :: (mid ++ ['-', c])))⟩ :
    String) = n
  rw [hclean, hid, stripChars_eq_self hh hl]

/-- C10 witness: the round-trip holds on the canonical 11-digit
identifier `'22400022111'`. -/
theorem compact_format_roundtrip_witness :
    4 ≤ ("22400022111" : String).data.length ∧
    (∀ c ∈ ("22400022111" : String).data, c ≠ ' ' ∧ c ≠ '-') ∧
    noEdgeWhitespace ("22400022111" : String).data = true ∧
    (format "22400022111").map compact = some "22400022111" :=
  ⟨by decide, by decide, by decide,
   compact_format_roundtrip "22400022111" (by decide) (by decide) (by decide)⟩

end Cedula
